import Mathlib

/-!
Verification of the binary-decompilation server (FastAPI + Ghidra + LLM pipeline).

Shallow embedding of:
  * `server/services/llm_service.py` — output quality gate
    (`_is_garbled_output`, `_detect_and_truncate_repetition`, `_format_c_code`,
    the post-processing tail of `decompile_to_c`);
  * `server/services/ghidra_service.py` — function classifier (`is_user_function`);
  * `server/routers/decompile.py` — job orchestrator (`process_binary`,
    `update_job_status`, `get_job_status`, `get_job_result`, job creation).

Text is modelled as `List Char`.  Python `str.lower()` / `str.strip()` /
`\s` / `\w` are modelled on the ASCII range (every string the code compares
against is ASCII).  Python floats appear in two spots and are modelled
exactly where the comparison is float-insensitive (noted at each site).
-/

set_option maxRecDepth 20000

namespace Spec2Proof

abbrev Text := List Char

/-- ASCII model of Python whitespace (the class `\s` and `str.strip()`). -/
def isPySpace (c : Char) : Bool :=
  c = ' ' || c = '\t' || c = '\n' || c = '\r' || c = '\x0b' || c = '\x0c'

/-- ASCII model of Python `str.lower()` on one character. -/
def asciiLower (c : Char) : Char :=
  if 'A' ≤ c ∧ c ≤ 'Z' then Char.ofNat (c.toNat + 32) else c

/-- ASCII model of Python `str.lower()`. -/
def pyLower (l : Text) : Text := l.map asciiLower

/-- ASCII model of the regex class `\w`. -/
def isWordChar (c : Char) : Bool :=
  ('a' ≤ c && c ≤ 'z') || ('A' ≤ c && c ≤ 'Z') || ('0' ≤ c && c ≤ '9') || c = '_'

/-- `pat` is a leading segment of `l` (Python `str.startswith`). -/
def isPre : Text → Text → Bool
  | [], _ => true
  | _ :: _, [] => false
  | a :: as, b :: bs => a = b && isPre as bs

/-- `pat` is a trailing segment of `l` (Python `str.endswith`). -/
def isSuf (pat l : Text) : Bool := isPre pat.reverse l.reverse

/-- `pat` occurs inside `l` (Python `in` on strings). -/
def hasSub (pat l : Text) : Bool :=
  match l with
  | [] => isPre pat []
  | _ :: rest => isPre pat l || hasSub pat rest

/-- Python `str.strip()` (ASCII whitespace model). -/
def pyStrip (l : Text) : Text :=
  ((l.dropWhile isPySpace).reverse.dropWhile isPySpace).reverse

/-- Number of occurrences of a character. -/
def countCh (c : Char) (l : Text) : Nat := l.count c

/-- Python `str.split('\n')`. -/
def splitNl : Text → List Text
  | [] => [[]]
  | c :: rest =>
    if c = '\n' then [] :: splitNl rest
    else
      match splitNl rest with
      | [] => [[c]]
      | h :: t => (c :: h) :: t

/-- Python `'\n'.join(...)`. -/
def joinNl : List Text → Text
  | [] => []
  | [x] => x
  | x :: y :: t => x ++ '\n' :: joinNl (y :: t)

theorem splitNl_ne_nil (l : Text) : splitNl l ≠ [] := by
  cases l with
  | nil => simp [splitNl]
  | cons c rest =>
    simp only [splitNl]
    split
    · simp
    · split <;> simp

theorem joinNl_splitNl (l : Text) : joinNl (splitNl l) = l := by
  induction l with
  | nil => rfl
  | cons c rest ih =>
    simp only [splitNl]
    split
    · rename_i hc
      rcases h : splitNl rest with _ | ⟨h1, t1⟩
      · exact absurd h (splitNl_ne_nil rest)
      · rw [h] at ih
        simp only [joinNl, hc]
        cases t1 with
        | nil => simp only [joinNl] at ih ⊢; simp [ih]
        | cons a b => simp only [joinNl] at ih ⊢; simp [ih]
    · rcases h : splitNl rest with _ | ⟨h1, t1⟩
      · exact absurd h (splitNl_ne_nil rest)
      · rw [h] at ih
        cases t1 with
        | nil => simp only [joinNl] at ih ⊢; simp [ih]
        | cons a b => simp only [joinNl] at ih ⊢; simp [ih]

theorem joinNl_length (xs : List Text) :
    (joinNl xs).length = (xs.map List.length).sum + (xs.length - 1) := by
  induction xs with
  | nil => rfl
  | cons x t ih =>
    cases t with
    | nil => simp [joinNl]
    | cons y s =>
      simp only [joinNl, List.length_append, List.length_cons, List.map_cons,
        List.sum_cons] at ih ⊢
      omega

theorem joinNl_take_length_le (xs : List Text) (n : Nat) :
    (joinNl (xs.take n)).length ≤ (joinNl xs).length := by
  rw [joinNl_length, joinNl_length]
  have hsum : ((xs.take n).map List.length).sum ≤ (xs.map List.length).sum := by
    have h1 : (xs.map List.length) =
        ((xs.take n).map List.length) ++ ((xs.drop n).map List.length) := by
      rw [← List.map_append, List.take_append_drop]
    rw [h1, List.sum_append]
    exact Nat.le_add_right _ _
  have hlen : (xs.take n).length ≤ xs.length := by
    simp [List.length_take_le]
  omega

/-!  ## `server/services/llm_service.py` — output quality gate  -/

/-- The noise character class of `_is_garbled_output`
(Python: `'@\\^` + backtick + `~|'`; the backtick is written numerically). -/
def noiseChars : Text := ['@', '\\', '^', Char.ofNat 96, '~', '|']

/-- The fixed hallucination-artifact list of `_is_garbled_output`, already
lowercased (the code compares `pattern.lower()` against `code.lower()`). -/
def garbagePatterns : List Text :=
  [ "\\x".data, "@ptrfun".data, "@ptrcast".data, "@versionstring".data,
    "/scratch/".data, "\\ufffd".data, "!!!".data, "???".data,
    "([[[".data, "]]])".data,
    "\x7b\x7b\x7b\x7b".data, "\x7d\x7d\x7d\x7d".data ]

/-- `_is_garbled_output` (llm_service.py:232-279).
The float comparison `special_chars > len(code) * 0.05` is modelled exactly as
`20 * special > len` (both sides integers; the double rounding of `0.05` never
changes the comparison for integer operands), and
`abs(open-close) > open * 0.5` as `2 * |open - close| > open` (0.5 is exact). -/
def is_garbled (code : Text) : Bool :=
  if code.length < 10 then true
  else if code.length < 20 * (code.filter (fun c => noiseChars.contains c)).length then true
  else if garbagePatterns.any (fun p => hasSub p (pyLower code)) then true
  else if (splitNl code).any (fun l => 500 < l.length) then true
  else
    let o := countCh '\x7b' code
    let c := countCh '\x7d' code
    if 0 < o && o < 2 * (max o c - min o c) then true else false

/-- Strategy 1 of `_detect_and_truncate_repetition`: the same stripped line
repeated more than 3 times in a row (state: enumerated remaining lines,
`consecutive_repeats`, `last_line`). -/
def strat1Go : List (Nat × Text) → Nat → Option Text → Option Nat
  | [], _, _ => none
  | (i, line) :: rest, repeats, lastLine =>
    let s := pyStrip line
    if s.isEmpty then strat1Go rest repeats lastLine
    else if some s = lastLine then
      if 3 ≤ repeats + 1 then some (i - (repeats + 1))
      else strat1Go rest (repeats + 1) lastLine
    else strat1Go rest 0 (some s)

def strat1 (lines : List Text) : Option Nat := strat1Go lines.enum 0 none

def stdStringLit : Text := "std::string".data

/-- The tail of the regex `std::string\s+(\w+)\s*\(` after the literal part:
at least one whitespace, then the captured `\w+` run, optional whitespace,
then `(`.  (Greedy matching of these disjoint classes never backtracks.) -/
def declTail (r : Text) : Option Text :=
  let ws := r.takeWhile isPySpace
  if ws.isEmpty then none
  else
    let r1 := r.drop ws.length
    let w := r1.takeWhile isWordChar
    if w.isEmpty then none
    else
      match (r1.drop w.length).dropWhile isPySpace with
      | '(' :: _ => some w
      | _ => none

/-- `re.search` of `std::string\s+(\w+)\s*\(` in one line: the leftmost
occurrence of the literal whose tail matches wins. -/
def stringDeclName : Text → Option Text
  | [] => none
  | c :: rest =>
    if isPre stdStringLit (c :: rest) then
      match declTail ((c :: rest).drop stdStringLit.length) with
      | some w => some w
      | none => stringDeclName rest
    else stringDeclName rest

/-- One step of the variable-name inflation signature: `curr` is `prev` plus
exactly one trailing character, or the other way round. -/
def isInflPair (prev curr : Text) : Bool :=
  (curr.length = prev.length + 1 && isPre prev curr) ||
  (prev.length = curr.length + 1 && isPre curr prev)

/-- Strategy 2 inner loop over declared names (`j` indexes `var_names`,
`ic` is `inflation_count`); on the fifth consecutive inflating pair the
truncation line is `var_lines[j - inflation_count]`. -/
def inflGo (varPairs : List (Text × Nat)) :
    List (Text × Nat) → Text → Nat → Nat → Option Nat
  | [], _, _, _ => none
  | (curr, _) :: rest, prev, ic, j =>
    if isInflPair prev curr then
      if 5 ≤ ic + 1 then
        match varPairs.get? (j - (ic + 1)) with
        | some p => some p.2
        | none => none
      else inflGo varPairs rest curr (ic + 1) (j + 1)
    else inflGo varPairs rest curr 0 (j + 1)

/-- Strategy 2 of `_detect_and_truncate_repetition`: variable-name inflation
among `std::string` declarations (only when more than 5 declarations exist). -/
def strat2 (lines : List Text) : Option Nat :=
  let pairs := lines.enum.filterMap
    (fun il => (stringDeclName il.2).map (fun w => (w, il.1)))
  if 5 < pairs.length then
    match pairs with
    | [] => none
    | p0 :: rest => inflGo pairs rest p0.1 0 1
  else none

/-- Strategy 3 counter loop: the line index of the 11th line containing
`std::string`. -/
def strat3Go : List (Nat × Text) → Nat → Option Nat
  | [], _ => none
  | (i, line) :: rest, count =>
    if hasSub stdStringLit line then
      if 10 < count + 1 then some i else strat3Go rest (count + 1)
    else strat3Go rest count

/-- Strategy 3 of `_detect_and_truncate_repetition`: more than 15
`std::string` declarations. -/
def strat3 (lines : List Text) : Option Nat :=
  if 15 < (lines.filter (fun l => hasSub stdStringLit l)).length then
    strat3Go lines.enum 0
  else none

/-- The lines strategy 4 ignores: blank, bare braces/terminators, short. -/
def strat4Skip (s : Text) : Bool :=
  s.isEmpty || s = "\x7b".data || s = "\x7d".data || s = ";".data ||
  s = "return;".data || s = "break;".data || s.length < 15

def lookupOcc (s : Text) : List (Text × List Nat) → Option (List Nat)
  | [] => none
  | (k, v) :: rest => if k = s then some v else lookupOcc s rest

def updateOcc (s : Text) (v : List Nat) :
    List (Text × List Nat) → List (Text × List Nat)
  | [] => []
  | (k, w) :: rest => if k = s then (s, v) :: rest else (k, w) :: updateOcc s v rest

/-- Strategy 4 of `_detect_and_truncate_repetition`: some non-trivial stripped
line occurs 4 or more times anywhere; truncate at its second occurrence
(`seen_lines[stripped][1]`). -/
def strat4Go : List (Nat × Text) → List (Text × List Nat) → Option Nat
  | [], _ => none
  | (i, line) :: rest, seen =>
    let s := pyStrip line
    if strat4Skip s then strat4Go rest seen
    else
      match lookupOcc s seen with
      | some occs =>
        if 4 ≤ occs.length + 1 then
          match (occs ++ [i]).get? 1 with
          | some t => some t
          | none => none
        else strat4Go rest (updateOcc s (occs ++ [i]) seen)
      | none => strat4Go rest (seen ++ [(s, [i])])

def strat4 (lines : List Text) : Option Nat := strat4Go lines.enum []

/-- The `truncate_at` value computed by `_detect_and_truncate_repetition`:
the four strategies in order, each tried only when the previous found nothing. -/
def repIndex (lines : List Text) : Option Nat :=
  match strat1 lines with
  | some t => some t
  | none =>
    match strat2 lines with
    | some t => some t
    | none =>
      match strat3 lines with
      | some t => some t
      | none => strat4 lines

/-- The synthetic closing marker appended when the truncated text has more
open than close braces
(`'\n    // ... (output truncated - repetition detected)\n}'`). -/
def closingSuffix : Text :=
  "\n    // ... (output truncated - repetition detected)\n\x7d".data

/-- The prefix of the input kept when truncation fires
(`'\n'.join(lines[:truncate_at])`). -/
def truncHead (code : Text) : Text :=
  joinNl ((splitNl code).take ((repIndex (splitNl code)).getD 0))

/-- `_detect_and_truncate_repetition` (llm_service.py:282-384).
The Python guard `if truncate_at and truncate_at > 5` treats both `None` and
`0` as falsy; `5 < t` covers both. -/
def detrepeat (code : Text) : Text :=
  let lines := splitNl code
  if lines.length < 10 then code
  else
    match repIndex lines with
    | some t =>
      if 5 < t then
        let truncated := joinNl (lines.take t)
        if countCh '\x7d' truncated < countCh '\x7b' truncated then
          truncated ++ closingSuffix
        else truncated
      else code
    | none => code

/-- Decimal rendering of an index, for the `__FOR_LOOP_{i}__` placeholder. -/
def natToText (n : Nat) : Text := (toString n).data

def placeholder (i : Nat) : Text :=
  "__FOR_LOOP_".data ++ natToText i ++ "__".data

/-- Length of the match of `for\s*\([^)]+\)` at the start of `l`, if any:
the literal `for`, a maximal whitespace run, `(`, a nonempty maximal run of
non-`)` characters, then `)`.  (The greedy classes are disjoint, so the
regex engine never backtracks here.) -/
def forMatchLen (l : Text) : Option Nat :=
  if isPre "for".data l then
    let r := l.drop 3
    let nws := (r.takeWhile isPySpace).length
    match r.drop nws with
    | '(' :: r2 =>
      let nb := (r2.takeWhile (fun c => c != ')')).length
      if nb = 0 then none
      else
        match r2.drop nb with
        | ')' :: _ => some (3 + nws + 1 + nb + 1)
        | _ => none
    | _ => none
  else none

/-- `re.findall(r'for\s*\([^)]+\)', result)`: leftmost, non-overlapping.
Each step consumes at least one character, so running the scan on fuel
`length + 1` (structural recursion the kernel can evaluate) never exhausts
it; the fuel-0 arm is unreachable. -/
def findForLoopsGo : Nat → Text → List Text
  | 0, _ => []
  | _ + 1, [] => []
  | fuel + 1, c :: rest =>
    match forMatchLen (c :: rest) with
    | some (k + 1) =>
      (c :: rest).take (k + 1) :: findForLoopsGo fuel ((c :: rest).drop (k + 1))
    | some 0 => findForLoopsGo fuel rest
    | none => findForLoopsGo fuel rest

def findForLoops (l : Text) : List Text := findForLoopsGo (l.length + 1) l

/-- Python `str.replace(pat, rep)` for a nonempty pattern: leftmost,
non-overlapping, replace all.  Fuel as in `findForLoopsGo`. -/
def replaceAllGo (pat rep : Text) : Nat → Text → Text
  | 0, l => l
  | _ + 1, [] => []
  | fuel + 1, c :: rest =>
    if ¬ pat.isEmpty ∧ isPre pat (c :: rest) = true then
      rep ++ replaceAllGo pat rep fuel ((c :: rest).drop pat.length)
    else c :: replaceAllGo pat rep fuel rest

def replaceAll (pat rep l : Text) : Text := replaceAllGo pat rep (l.length + 1) l

/-- `for i, loop in enumerate(for_loops): result = result.replace(loop, ph i)`. -/
def applyProtect : List (Nat × Text) → Text → Text
  | [], t => t
  | (i, loop) :: rest, t => applyProtect rest (replaceAll loop (placeholder i) t)

/-- The inverse pass restoring each placeholder to its loop text. -/
def applyRestore : List (Nat × Text) → Text → Text
  | [], t => t
  | (i, loop) :: rest, t => applyRestore rest (replaceAll (placeholder i) loop t)

/-- The negative lookahead `(?!\s*\n)` holds unless the maximal whitespace
run that follows contains a newline. -/
def wsRunHasNl (rest : Text) : Bool := (rest.takeWhile isPySpace).contains '\n'

/-- `re.sub(r';(?!\s*\n)', ';\n', result)`. -/
def subSemi : Text → Text
  | [] => []
  | c :: rest =>
    if c = ';' then
      if wsRunHasNl rest then ';' :: subSemi rest else ';' :: '\n' :: subSemi rest
    else c :: subSemi rest

/-- `re.sub(r'\{(?!\s*\n)', '{\n', result)`. -/
def subOpenBrace : Text → Text
  | [] => []
  | c :: rest =>
    if c = '\x7b' then
      if wsRunHasNl rest then '\x7b' :: subOpenBrace rest
      else '\x7b' :: '\n' :: subOpenBrace rest
    else c :: subOpenBrace rest

/-- `re.sub(r'(?<!\n)\s*\}', '\n}', result)`: at a scan position not preceded
by a newline (in the original text), a maximal whitespace run followed by `}`
is replaced by `'\n}'`; scanning resumes after the consumed `}`.  Fuel as in
`findForLoopsGo`. -/
def subCloseGo : Nat → Option Char → Text → Text
  | 0, _, l => l
  | _ + 1, _, [] => []
  | fuel + 1, prev, c :: rest =>
    if prev = some '\n' then c :: subCloseGo fuel (some c) rest
    else
      let nws := ((c :: rest).takeWhile isPySpace).length
      match (c :: rest).drop nws with
      | '\x7d' :: after => '\n' :: '\x7d' :: subCloseGo fuel (some '\x7d') after
      | _ => c :: subCloseGo fuel (some c) rest

def subClose (l : Text) : Text := subCloseGo (l.length + 1) none l

/-- `re.sub(r'\}(?!\s*else)(?!\s*\n)(?!\s*$)', '}\n', result)`.  With no
MULTILINE flag, `\s*$` succeeds exactly when the remaining text is all
whitespace. -/
def subCloseAfter : Text → Text
  | [] => []
  | c :: rest =>
    if c = '\x7d' then
      if isPre "else".data (rest.dropWhile isPySpace) then '\x7d' :: subCloseAfter rest
      else if wsRunHasNl rest then '\x7d' :: subCloseAfter rest
      else if rest.all isPySpace then '\x7d' :: subCloseAfter rest
      else '\x7d' :: '\n' :: subCloseAfter rest
    else c :: subCloseAfter rest

/-- `re.sub(r'\n{3,}', '\n\n', result)`: a maximal run of 3 or more newlines
collapses to exactly two.  Fuel as in `findForLoopsGo`. -/
def collapseNlGo : Nat → Text → Text
  | 0, l => l
  | _ + 1, [] => []
  | fuel + 1, c :: rest =>
    if c = '\n' then
      let run := ((c :: rest).takeWhile (fun x => x = '\n')).length
      if 3 ≤ run then '\n' :: '\n' :: collapseNlGo fuel ((c :: rest).drop run)
      else c :: collapseNlGo fuel rest
    else c :: collapseNlGo fuel rest

def collapseNl (l : Text) : Text := collapseNlGo (l.length + 1) l

/-- The final indentation pass of `_format_c_code`: 4 spaces per brace level,
a leading `}` dedents before the line is emitted, a trailing `{` indents the
following lines (Python `indent = max(0, indent - 1)` is Nat subtraction). -/
def indentGo : List Text → Nat → List Text
  | [], _ => []
  | line :: rest, ind =>
    let s := pyStrip line
    if s.isEmpty then [] :: indentGo rest ind
    else
      let ind1 := if isPre "\x7d".data s then ind - 1 else ind
      let ind2 := if isSuf "\x7b".data s then ind1 + 1 else ind1
      (List.replicate (4 * ind1) ' ' ++ s) :: indentGo rest ind2

/-- The reformatting pipeline of `_format_c_code` (llm_service.py:399-448),
run only on output that still looks minified. -/
def reformat (code : Text) : Text :=
  let loops := (findForLoops code).enum
  let r1 := applyProtect loops code
  let r2 := subSemi r1
  let r3 := applyRestore loops r2
  let r4 := subOpenBrace r3
  let r5 := subClose r4
  let r6 := subCloseAfter r5
  let r7 := collapseNl r6
  joinNl (indentGo (splitNl r7) 0)

/-- `_format_c_code` (llm_service.py:387-448): first truncate repetition, then
return unchanged when the (truncated) text is empty or already has more than
5 newlines, else reformat.  (Python's `not code or '\n' in code and
code.count('\n') > 5` is `code == '' or count > 5`.) -/
def format_c_code (code : Text) : Text :=
  let code1 := detrepeat code
  if code1.isEmpty || 5 < countCh '\n' code1 then code1 else reformat code1

/-- The quality-gate tail of `decompile_to_c` (llm_service.py:215-223): the
backend's raw generation `result` is stripped and formatted (which runs
repetition truncation first), and only then checked for garble; a garbled
formatted output reverts to the pre-call input `ghidra_pseudo_c`.  The
model call itself is the external backend, abstracted as the `result`
argument. -/
def decompile_postprocess (ghidraPseudoC result : Text) : Text :=
  let formatted := format_c_code (pyStrip result)
  if is_garbled formatted then ghidraPseudoC else formatted

/-!  ## `server/services/ghidra_service.py` — function classifier  -/

/-- `LIBRARY_FUNCTIONS` (ghidra_service.py:20-97).  The Python set is built
from these literals; duplicate literals ("atexit", "_exit") are harmless for
the membership test. -/
def libraryFunctions : List String :=
  [ "malloc", "free", "calloc", "realloc",
    "printf", "fprintf", "sprintf", "snprintf", "vprintf", "vfprintf",
    "scanf", "fscanf", "sscanf",
    "fopen", "fclose", "fread", "fwrite", "fseek", "ftell", "fflush",
    "fgets", "fputs", "fgetc", "fputc", "getc", "putc", "getchar", "putchar",
    "strlen", "strcpy", "strncpy", "strcat", "strncat", "strcmp", "strncmp",
    "strchr", "strrchr", "strstr", "strtok", "strdup",
    "memcpy", "memmove", "memset", "memcmp", "memchr",
    "atoi", "atol", "atof", "strtol", "strtoul", "strtod",
    "abs", "labs", "rand", "srand",
    "exit", "abort", "atexit", "_exit",
    "isalpha", "isdigit", "isalnum", "isspace", "isupper", "islower",
    "toupper", "tolower",
    "time", "clock", "difftime", "mktime", "localtime", "gmtime",
    "qsort", "bsearch",
    "GetLastError", "SetLastError", "GetModuleHandle", "GetProcAddress",
    "LoadLibrary", "FreeLibrary", "GetModuleFileName",
    "CreateFile", "ReadFile", "WriteFile", "CloseHandle",
    "VirtualAlloc", "VirtualFree", "VirtualProtect",
    "HeapAlloc", "HeapFree", "HeapReAlloc",
    "GetProcessHeap", "GetCurrentProcess", "GetCurrentThread",
    "ExitProcess", "TerminateProcess",
    "MessageBox", "MessageBoxA", "MessageBoxW",
    "__security_check_cookie", "__security_init_cookie",
    "__GSHandlerCheck", "__CxxFrameHandler3", "__CxxFrameHandler4",
    "_initterm", "_initterm_e", "__acrt_iob_func",
    "_cexit", "_c_exit", "_exit", "__p___argc", "__p___argv",
    "_start", "__libc_start_main", "__gmon_start__",
    "__cxa_atexit", "__cxa_finalize",
    "_fini", "_init",
    "WinMainCRTStartup", "mainCRTStartup", "wmainCRTStartup", "wWinMainCRTStartup",
    "__tmainCRTStartup", "__wgetmainargs", "__getmainargs",
    "__main", "__do_global_dtors", "__do_global_ctors",
    "atexit", "__gcc_register_frame", "__gcc_deregister_frame",
    "mark_section_writable", "restore_modified_sections",
    "mingw_set_invalid_parameter_handler", "mingw_get_invalid_parameter_handler",
    "_matherr", "mingw_matherr", "__mingw_raise_matherr",
    "__mingw_GetSectionForAddress", "__mingw_GetSectionCount",
    "_pei386_runtime_relocator", "__mingw_init_ehandler",
    "_gnu_exception_handler", "__mingwInitEhandler",
    "_Unwind_Resume", "_Unwind_RaiseException", "_Unwind_GetIP",
    "__gxx_personality_v0", "__cxa_begin_catch", "__cxa_end_catch",
    "__cxa_throw", "__cxa_rethrow", "__cxa_allocate_exception",
    "empty", "size", "length", "capacity", "begin", "end", "cbegin", "cend",
    "rbegin", "rend", "front", "back", "data", "clear", "erase", "insert",
    "push_back", "pop_back", "push_front", "pop_front", "resize", "reserve",
    "swap", "assign", "at", "get", "set", "find", "count", "contains",
    "eq", "ne", "lt", "gt", "le", "ge",
    "equal", "not_equal", "less", "greater", "less_equal", "greater_equal",
    "next", "prev", "advance", "distance",
    "reset", "release", "get_deleter", "use_count", "unique", "expired", "lock",
    "type", "value_type", "pointer", "reference", "iterator", "const_iterator",
    "allocate", "deallocate", "construct", "destroy", "get_allocator",
    "allocator", "rebind", "max_size",
    "c_str", "substr", "append", "replace", "compare", "rfind", "find_first_of",
    "find_last_of", "find_first_not_of", "find_last_not_of", "npos",
    "copy", "move", "forward", "move_if_noexcept",
    "copy_n", "copy_backward", "move_backward",
    "emplace", "emplace_back", "emplace_front", "emplace_hint",
    "shrink_to_fit", "bucket_count", "load_factor", "max_load_factor",
    "hash_function", "key_eq", "key_comp", "value_comp" ]

/-- The always-retain entry-point names (`priority_names`,
ghidra_service.py:145). -/
def priorityEntryNames : List String :=
  ["main", "_main", "wmain", "_wmain", "winmain", "_winmain", "wwinmain"]

/-- `runtime_prefixes` (ghidra_service.py:163-174). -/
def runtimeMarkers : List String :=
  [ "__scrt_", "__acrt_", "__vcrt_", "__std_", "__crt_",
    "_CRT_", "_RTC_", "__security_", "__report_", "__raise_",
    "FID_conflict:", "_guard_", "__GSHandler", "__CxxFrame",
    "__mingw_", "_mingw_", "mingw_", "__gnu_",
    "__do_global_", "__gcc_", "_Unwind_", "__gxx_",
    "__cxa_", "_pei386_",
    "__register_frame", "__deregister_frame" ]

/-- `crt_patterns` (ghidra_service.py:180-183), matched case-insensitively
as substrings. -/
def crtPatterns : List String :=
  [ "crtStartup", "CRTStartup", "mainCRT", "WinMainCRT",
    "tmainCRT", "wmainCRT", "dllmain", "DllMain" ]

/-- `stl_patterns` (ghidra_service.py:194-215), matched case-sensitively
as substrings. -/
def stlPatterns : List String :=
  [ "std::", "operator", "basic_string", "basic_ostream", "basic_istream",
    "basic_ios", "basic_streambuf", "basic_filebuf", "basic_fstream",
    "allocator<", "vector<", "list<", "map<", "set<", "unordered_",
    "unique_ptr<", "shared_ptr<", "weak_ptr<", "make_unique", "make_shared",
    "pair<", "tuple<", "optional<", "variant<", "any<",
    "iterator<", "reverse_iterator", "back_insert_iterator",
    "char_traits<", "collate<", "ctype<", "codecvt<",
    "numpunct<", "moneypunct<", "time_get<", "time_put<",
    "messages<", "money_get<", "money_put<", "num_get<", "num_put<",
    "_Tidy_guard<", "_Alloc_", "_String_", "_Vector_", "_Tree_",
    "locale::", "facet::", "ios_base::", "streambuf::",
    "_Narrow_char_traits", "_Char_traits_base", "_String_alloc",
    "_Compressed_pair", "_Vector_alloc", "_List_alloc",
    "__gnu_cxx::", "__gnu_cxx", "char_traits",
    "__ptr_traits", "__alloc_traits", "__iterator_traits",
    "pointer_to", "addressof", "construct_at", "destroy_at",
    "allocator_traits", "uses_allocator" ]

/-- `keep_names` of the single-underscore rule (ghidra_service.py:236). -/
def keepNames : List String := ["_main", "_winmain", "_start", "_wmain"]

/-- The structural metadata of one recovered function that the classifier
reads: `func.isExternal()`, `func.isThunk()`, and the byte size
`func.getBody().getNumAddresses()` (`none` when `func.getBody()` is falsy,
skipping the size rules). -/
structure FuncMeta where
  isExternal : Bool
  isThunk : Bool
  bodyAddresses : Option Nat
deriving DecidableEq, Repr

/-- The environment switches the classifier reads:
`SKIP_FUN_FUNCTIONS` and `MIN_FUNCTION_SIZE` (default 50). -/
structure ClassifierEnv where
  skipFunFunctions : Bool
  minFunctionSize : Nat
deriving DecidableEq, Repr

/-- `is_user_function` (ghidra_service.py:134-252), the rules in source
order, first match wins. -/
def is_user_function (env : ClassifierEnv) (func : FuncMeta) (funcName : String) : Bool :=
  let nameChars := funcName.data
  let lowerName := pyLower nameChars
  if (priorityEntryNames.map String.data).contains lowerName then true
  else if func.isExternal || func.isThunk then false
  else if env.skipFunFunctions && isPre "FUN_".data nameChars then false
  else if (libraryFunctions.map (fun s => pyLower s.data)).contains lowerName then false
  else if runtimeMarkers.any (fun p => isPre p.data nameChars) then false
  else if crtPatterns.any (fun p => hasSub (pyLower p.data) lowerName) then false
  else if isPre "__".data nameChars then false
  else if stlPatterns.any (fun p => hasSub p.data nameChars) then false
  else if isPre "std::".data (pyStrip nameChars) then false
  else if isPre "~".data nameChars || isSuf "::~".data nameChars then false
  else if nameChars.length ≤ 2 && !(["main"].map String.data).contains lowerName then false
  else if isPre "_".data nameChars &&
      !(keepNames.map String.data).contains lowerName then false
  else
    match func.bodyAddresses with
    | some numAddrs =>
      if isPre "FUN_".data nameChars && numAddrs < env.minFunctionSize then false
      else if !(isPre "FUN_".data nameChars && numAddrs < env.minFunctionSize) &&
          numAddrs < 10 then false
      else true
    | none => true

/-!  ## `server/models/schemas.py` and `server/routers/decompile.py`  -/

/-- `JobStatus` (schemas.py:6-13). -/
inductive JobStatus
  | pending
  | uploading
  | disassembling
  | analyzing
  | ai_refactoring
  | completed
  | failed
deriving DecidableEq, Repr

/-- `FunctionCode` (schemas.py:31-34). -/
structure FunctionCode where
  name : String
  raw_code : String
  refactored_code : Option String
deriving DecidableEq, Repr

/-- One entry of the in-memory `jobs` table (decompile.py:225-238).
Function maps are association lists in dict insertion order (Python dicts
with unique keys). -/
structure Job where
  status : JobStatus
  stage : String
  progress : Nat
  logs : List String
  file_path : String
  raw_functions : List (String × String)
  refactored_functions : List (String × String)
  raw_combined : String
  refactored_combined : String
  error : Option String
deriving DecidableEq, Repr

/-- `JobStatusResponse` (schemas.py:22-28). -/
structure JobStatusResponse where
  job_id : String
  status : JobStatus
  stage : String
  progress : Nat
  logs : List String
  error : Option String
deriving DecidableEq, Repr

/-- `JobResultResponse` (schemas.py:37-43). -/
structure JobResultResponse where
  job_id : String
  status : JobStatus
  functions : List FunctionCode
  raw_combined : String
  refactored_combined : String
  error : Option String
deriving DecidableEq, Repr

/-- The two client errors the status/result queries raise
(HTTP 404 and HTTP 400 in the source). -/
inductive ApiError
  | notFound
  | notReady
deriving DecidableEq, Repr

/-- `update_job_status` (decompile.py:57-63), for a job known to exist. -/
def updateJobStatus (j : Job) (st : JobStatus) (stage : String) (progress : Nat) : Job :=
  { j with status := st, stage := stage, progress := progress }

/-- The job created by `upload_binary` (decompile.py:225-238). -/
def initialJob (fileName : String) (contentSize : Nat) (modeStr filePath : String) : Job :=
  { status := .pending
    stage := "Queued"
    progress := 0
    logs := [ "[*] File received: " ++ fileName,
              "[*] Size: " ++ toString contentSize ++ " bytes",
              "[*] Mode: " ++ modeStr ]
    file_path := filePath
    raw_functions := []
    refactored_functions := []
    raw_combined := ""
    refactored_combined := ""
    error := none }

/-- `"\n\n".join(f"// Function: {name}\n{code}" ...)` (decompile.py:101-104). -/
def combineFunctions (fns : List (String × String)) : String :=
  String.intercalate "\n\n" (fns.map (fun nc => "// Function: " ++ nc.1 ++ "\n" ++ nc.2))

/-- `any(p in name.lower() for p in ["entry", "main", "start"])`
(decompile.py:131). -/
def isPriorityName (name : String) : Bool :=
  let low := pyLower name.data
  hasSub "entry".data low || hasSub "main".data low || hasSub "start".data low

def isPriorityFunc (f : String × String) : Bool := isPriorityName f.1

/-- The sorting loop of decompile.py:128-135: one pass appending priority
functions to `sorted_funcs` and the rest to `other_funcs`, then
concatenating — a stable partition. -/
def prioritize (fns : List (String × String)) : List (String × String) :=
  fns.filter isPriorityFunc ++ fns.filter (fun f => !isPriorityFunc f)

/-- `funcs_to_process = sorted_funcs[:MAX_FUNCTIONS]` (decompile.py:138). -/
def selectFuncs (fns : List (String × String)) (maxFunctions : Nat) :
    List (String × String) :=
  (prioritize fns).take maxFunctions

/-- The log line of decompile.py:141. -/
def skipMsg (kept skipped : Nat) : String :=
  "[*] Processing " ++ toString kept ++ " functions (skipping " ++
    toString skipped ++ " for speed)"

def procMsg (name : String) : String := "[*] Processing function: " ++ name

def compMsg (name : String) : String := "[+] Completed: " ++ name

/-- The outcome of one run of the processing routine: the final job record,
the remaining temporary files, and the successive values written to the
job's `progress` field by `update_job_status`. -/
structure ProcOut where
  job : Job
  fs : List String
  writes : List Nat
deriving Repr

/-- The message of the `TypeError` raised by the call at decompile.py:150:
`refactor_code(func_name, func_code, gemini_mode=..., vertex_mode=...)`
passes keyword arguments that `ai_service.refactor_code`
(ai_service.py:57-61, the symbol imported at decompile.py:68, signature
`(function_name, raw_code, context_functions=None)`) does not accept.
CPython raises the `TypeError` at the call site, before the coroutine runs;
its exact rendering is version-dependent, so the text is modelled and no
theorem below inspects it. -/
def refactorTypeError : String :=
  "refactor_code() got an unexpected keyword argument gemini_mode"

/-- `process_binary` (decompile.py:65-174).  External collaborators are
parameters: `disasm` is the outcome of `decompile_binary` (an exception
becomes the `error` case, caught by the `except` block), and `maxFunctions`
is `int(os.environ.get("MAX_FUNCTIONS", "10"))`.  The filesystem is the
list `fs` of existing temporary paths; the `finally` block removes
`filePath` from it on every path.

The refinement loop (decompile.py:145-152) is embedded as the source
executes, not as it was intended: its first iteration logs, writes progress
`60 + int((0 / total) * 35)` (float truncation modelled exactly; `35 * 0 /
total = 0` regardless), and then the `refactor_code` call raises
`TypeError` because of the unexpected `gemini_mode`/`vertex_mode` keywords
(see `refactorTypeError`), so line 155 is never reached, the job's refined
map is never written, and the `except` block marks the job failed.  Only
when the selection is empty does the loop body never run and the job
complete — with an empty refined map.  Per-iteration `update_job_status`
calls overwrite `stage`; the written progress values are recorded in
`writes`. -/
def processBinary (j0 : Job) (filePath : String) (fs : List String)
    (disasm : Except String (List (String × String)))
    (maxFunctions : Nat) (geminiMode vertexMode : Bool) : ProcOut :=
  let modeLog :=
    if geminiMode then "[*] Using Gemini Mode (Gemini Pro + Flash)"
    else if vertexMode then "[*] Using Vertex AI (Cloud GPU) for refactoring"
    else "[*] Using LLM4Decompile + Gemini Flash for refactoring"
  let j1 := updateJobStatus j0 .disassembling "Disassembling binary..." 10
  let j1 := { j1 with logs := j1.logs ++
    [ "[*] Starting Ghidra analysis...",
      "[*] Loading binary: " ++ filePath,
      modeLog,
      "[*] Initializing decompiler interface..." ] }
  match disasm with
  | .error e =>
    let jf := { j1 with
      status := JobStatus.failed
      error := some e
      logs := j1.logs ++ ["[!] Error: " ++ e] }
    ⟨jf, fs.filter (fun p => p ≠ filePath), [10]⟩
  | .ok functions =>
    let foundLogs :=
      ("[+] Found " ++ toString functions.length ++ " functions")
        :: ((functions.take 10).map (fun nc => "    - " ++ nc.1))
        ++ (if 10 < functions.length then
              ["    ... and " ++ toString (functions.length - 10) ++ " more"]
            else [])
    let j2 := { j1 with logs := j1.logs ++ foundLogs }
    let j3 := updateJobStatus j2 .analyzing "Analyzing control flow..." 40
    let j3 := { j3 with
      logs := j3.logs ++ [ "[*] Analyzing control flow graphs...",
                           "[*] Identifying function boundaries..." ],
      raw_functions := functions,
      raw_combined := combineFunctions functions }
    let stageName :=
      if geminiMode then "Gemini refactoring code..."
      else if vertexMode then "Vertex AI (Cloud GPU) refactoring code..."
      else "AI refactoring code..."
    let startLog :=
      if geminiMode then "[*] Starting Gemini Pro refactoring..."
      else if vertexMode then "[*] Starting Vertex AI inference..."
      else "[*] Starting LLM4Decompile refinement..."
    let j4 := updateJobStatus j3 .ai_refactoring stageName 60
    let j4 := { j4 with logs := j4.logs ++ [startLog] }
    let funcsToProcess := selectFuncs functions maxFunctions
    let skipped := functions.length - funcsToProcess.length
    let j5 :=
      if 0 < skipped then
        { j4 with logs := j4.logs ++ [skipMsg funcsToProcess.length skipped] }
      else j4
    match funcsToProcess with
    | [] =>
      -- The loop body never runs; lines 155-160 store the (empty) refined
      -- map and the job completes.
      let j6 := { j5 with
        refactored_functions := ([] : List (String × String)),
        refactored_combined := combineFunctions [] }
      let j7 := updateJobStatus j6 .completed "Completed!" 100
      let j7 := { j7 with logs := j7.logs ++
        [ "[+] Decompilation and refactoring complete!",
          "[+] Processed " ++ toString functions.length ++ " functions successfully" ] }
      ⟨j7, fs.filter (fun p => p ≠ filePath), [10, 40, 60, 100]⟩
    | (name, _) :: _ =>
      -- First iteration (i = 0): log, write progress, then the
      -- refactor_code call at decompile.py:150 raises TypeError; the except
      -- block (decompile.py:167-170) marks the job failed.  Lines 155-160
      -- are unreachable, so the refined map keeps its prior value.
      let j6 := { j5 with logs := j5.logs ++ [procMsg name] }
      let j6 := updateJobStatus j6 .ai_refactoring
        ("Refactoring " ++ name ++ "...") (60 + 35 * 0 / funcsToProcess.length)
      let jf := { j6 with
        status := JobStatus.failed
        error := some refactorTypeError
        logs := j6.logs ++ ["[!] Error: " ++ refactorTypeError] }
      ⟨jf, fs.filter (fun p => p ≠ filePath),
        [10, 40, 60, 60 + 35 * 0 / funcsToProcess.length]⟩

/-- `get_job_status` (decompile.py:249-263). -/
def getJobStatus (jobs : List (String × Job)) (jobId : String) :
    Except ApiError JobStatusResponse :=
  match jobs.lookup jobId with
  | none => .error .notFound
  | some j => .ok ⟨jobId, j.status, j.stage, j.progress, j.logs, j.error⟩

/-- The result assembly loop of `get_job_result` (decompile.py:280-289):
one `FunctionCode` per raw function, `refactored_code` looked up with
`dict.get` (absent → `None`). -/
def buildFunctionCodes (j : Job) : List FunctionCode :=
  j.raw_functions.map (fun nc =>
    ⟨nc.1, nc.2, j.refactored_functions.lookup nc.1⟩)

/-- `get_job_result` (decompile.py:266-298). -/
def getJobResult (jobs : List (String × Job)) (jobId : String) :
    Except ApiError JobResultResponse :=
  match jobs.lookup jobId with
  | none => .error .notFound
  | some j =>
    if ¬ (j.status = .completed ∨ j.status = .failed) then .error .notReady
    else .ok ⟨jobId, j.status, buildFunctionCodes j,
              j.raw_combined, j.refactored_combined, j.error⟩

/-!  ## Theorems  -/

/-- C5: every case variant of a canonical entry-point name (`main`, `_main`,
`wmain`, `WinMain`) is retained by `is_user_function`, regardless of the
external/thunk flags, the environment switches, and the body size. -/
theorem C5_always_retain (env : ClassifierEnv) (func : FuncMeta) (funcName : String)
    (h : pyLower funcName.data ∈
      ["main", "_main", "wmain", "winmain"].map String.data) :
    is_user_function env func funcName = true := by
  have hc : (priorityEntryNames.map String.data).contains (pyLower funcName.data) = true := by
    simp only [List.map_cons, List.map_nil, List.mem_cons, List.not_mem_nil,
      or_false] at h
    rcases h with h | h | h | h <;> rw [h] <;> decide
  simp only [is_user_function]
  rw [hc]
  simp

/-- Witness for C5 at a concrete external thunk of body size 0 named
`WinMain`. -/
theorem C5_always_retain_witness :
    is_user_function ⟨true, 0⟩ ⟨true, true, some 0⟩ "WinMain" = true :=
  C5_always_retain ⟨true, 0⟩ ⟨true, true, some 0⟩ "WinMain" (by decide)

/-- C7: `get_job_status` fails with `NotFound` exactly on unknown job ids and
otherwise answers; `get_job_result` fails with `NotFound` on unknown ids,
fails with `NotReady` exactly when the job's status is neither `completed`
nor `failed`, and otherwise returns a result. -/
theorem C7_query_error_contract (jobs : List (String × Job)) (jobId : String) :
    (getJobStatus jobs jobId = .error .notFound ↔ jobs.lookup jobId = none) ∧
    (∀ j, jobs.lookup jobId = some j →
      getJobStatus jobs jobId = .ok ⟨jobId, j.status, j.stage, j.progress, j.logs, j.error⟩) ∧
    (getJobResult jobs jobId = .error .notFound ↔ jobs.lookup jobId = none) ∧
    (∀ j, jobs.lookup jobId = some j →
      (getJobResult jobs jobId = .error .notReady ↔
        (j.status ≠ .completed ∧ j.status ≠ .failed))) ∧
    (∀ j, jobs.lookup jobId = some j → j.status = .completed ∨ j.status = .failed →
      ∃ r, getJobResult jobs jobId = .ok r) := by
  rcases hl : jobs.lookup jobId with _ | j
  · refine ⟨by simp [getJobStatus, hl], ?_, by simp [getJobResult, hl], ?_, ?_⟩
    · intro j hj
      cases hj
    · intro j hj
      cases hj
    · intro j hj _
      cases hj
  · refine ⟨by simp [getJobStatus, hl], ?_, ?_, ?_, ?_⟩
    · intro j' hj'
      cases hj'
      simp [getJobStatus, hl]
    · by_cases hs : j.status = JobStatus.completed ∨ j.status = JobStatus.failed <;>
        simp [getJobResult, hl, hs]
    · intro j' hj'
      cases hj'
      by_cases hs : j.status = JobStatus.completed ∨ j.status = JobStatus.failed <;>
        simp [getJobResult, hl, hs] <;> tauto
    · intro j' hj' hs
      cases hj'
      refine ⟨⟨jobId, j.status, buildFunctionCodes j,
        j.raw_combined, j.refactored_combined, j.error⟩, ?_⟩
      simp [getJobResult, hl, hs]

def c7DemoJob : Job := initialJob "demo.exe" 3 "LLM4Decompile + Gemini" "/tmp/demo"

/-- Witness for C7 at a one-entry job table whose job is still `pending`. -/
theorem C7_query_error_contract_witness :
    getJobStatus [("j1", c7DemoJob)] "missing" = .error .notFound ∧
    getJobResult [("j1", c7DemoJob)] "j1" = .error .notReady := by
  constructor
  · exact (C7_query_error_contract [("j1", c7DemoJob)] "missing").1.mpr (by decide)
  · exact ((C7_query_error_contract [("j1", c7DemoJob)] "j1").2.2.2.1 c7DemoJob
      (by decide)).mpr (by decide)

/-- C8: on every exit path of `process_binary` — the disassembly-exception
path, the empty-selection completion path, and the dominant mid-loop
`TypeError` path (decompile.py:150) — the `finally` block runs and the
temporary binary at `file_path` is no longer among the existing files when
the routine returns. -/
theorem C8_unconditional_cleanup (j0 : Job) (filePath : String) (fs : List String)
    (disasm : Except String (List (String × String)))
    (maxFunctions : Nat) (g v : Bool) :
    ((processBinary j0 filePath fs disasm maxFunctions g v).fs.contains
      filePath) = false := by
  have hfilter : ∀ l : List String,
      ((l.filter (fun p => p ≠ filePath)).contains filePath) = false := by
    intro l
    induction l with
    | nil => rfl
    | cons a t ih =>
      by_cases ha : a = filePath
      · simp [List.filter_cons, ha, ih]
      · simp [List.filter_cons, ha, ih, Ne.symm ha]
  cases disasm with
  | error e =>
    simp only [processBinary]
    exact hfilter fs
  | ok fns =>
    rcases hsel : selectFuncs fns maxFunctions with _ | ⟨⟨n, c⟩, rest⟩ <;>
      simp only [processBinary, hsel] <;> exact hfilter fs

/-- C2 counterexample: a backend output that contains `!!!` and the same
line 4 times in a row is *not* rejected outright — the repetition
truncation runs first, removes the garbled tail, and the (now clean)
truncated text is returned instead of the pre-call input. -/
def c2Input : Text := "undefined8 main(void)\n\x7b\n  return 0;\n\x7d".data

def c2BackendOutput : Text :=
  ("int f(void) \x7b\nint a = 1;\nint b = 2;\nint c = 3;\nint d = 4;\n" ++
   "int e = 5;\nx = x + 1;\nx = x + 1;\nx = x + 1;\nx = x + 1;\n!!!\n\x7d").data

theorem C2_counterexample :
    hasSub "!!!".data c2BackendOutput = true ∧
    ((splitNl c2BackendOutput).drop 6).take 4 =
      List.replicate 4 "x = x + 1;".data ∧
    decompile_postprocess c2Input c2BackendOutput ≠ c2Input := by decide

/-- C2 (amended): in `decompile_to_c` the garble check runs *last*, on the
output of repetition truncation and reformatting; when that processed output
is garbled the generation is rejected and the pre-call input is returned,
otherwise the processed output is returned. -/
theorem C2_gate_order (g r : Text) :
    (is_garbled (format_c_code (pyStrip r)) = true →
      decompile_postprocess g r = g) ∧
    (is_garbled (format_c_code (pyStrip r)) = false →
      decompile_postprocess g r = format_c_code (pyStrip r)) := by
  constructor <;> intro h <;> simp [decompile_postprocess, h]

/-- Witness for C2 at a garbled output (rejected, input kept) and at a clean
already-formatted output (accepted as processed). -/
theorem C2_gate_order_witness :
    decompile_postprocess c2Input "!!!".data = c2Input ∧
    decompile_postprocess c2Input "a\nb\nc\nd\ne\nf\ng".data =
      format_c_code (pyStrip "a\nb\nc\nd\ne\nf\ng".data) :=
  ⟨(C2_gate_order c2Input "!!!".data).1 (by decide),
   (C2_gate_order c2Input "a\nb\nc\nd\ne\nf\ng".data).2 (by decide)⟩

/-- C4 counterexample: a text with 13 newlines (≥ 6) that `_format_c_code`
does not return unchanged — and on which applying it twice differs from
applying it once — because the repetition truncation it runs first truncates
the text, and its own appended closing comment creates a fourth occurrence
of a repeated line that triggers a second truncation. -/
def c4Text : Text :=
  ("\x7b\naaa\n// ... (output truncated - repetition detected)\nbbb\nccc\nddd\n" ++
   "// ... (output truncated - repetition detected)\neee\n" ++
   "// ... (output truncated - repetition detected)\nfff\nx\nx\nx\nx").data

theorem C4_counterexample :
    5 < countCh '\n' c4Text ∧
    format_c_code c4Text ≠ c4Text ∧
    format_c_code (format_c_code c4Text) ≠ format_c_code c4Text := by decide

/-- C4 (amended): `_format_c_code` is the identity — and hence idempotent —
on every text with 6 or more newlines that its repetition-truncation
pre-pass leaves unchanged. -/
theorem C4_format_identity (code : Text)
    (h1 : detrepeat code = code) (h2 : 5 < countCh '\n' code) :
    format_c_code code = code ∧
    format_c_code (format_c_code code) = format_c_code code := by
  have hf : format_c_code code = code := by
    simp [format_c_code, h1, h2]
  exact ⟨hf, by rw [hf, hf]⟩

/-- Witness for C4 at a 7-line text (6 newlines, no repetition). -/
theorem C4_format_identity_witness :
    format_c_code "a\nb\nc\nd\ne\nf\ng".data = "a\nb\nc\nd\ne\nf\ng".data ∧
    format_c_code (format_c_code "a\nb\nc\nd\ne\nf\ng".data) =
      format_c_code "a\nb\nc\nd\ne\nf\ng".data :=
  C4_format_identity "a\nb\nc\nd\ne\nf\ng".data (by decide) (by decide)

theorem lookup_eq_none_of_not_mem_keys {α : Type} (a : String)
    (l : List (String × α)) (h : a ∉ l.map Prod.fst) : l.lookup a = none := by
  induction l with
  | nil => rfl
  | cons p t ih =>
    simp only [List.map_cons, List.mem_cons, not_or] at h
    have hne : (a == p.1) = false := beq_eq_false_iff_ne.mpr h.1
    simp only [List.lookup, hne]
    exact ih h.2

/-- C10: for a job whose status is `completed` or `failed`, `get_job_result`
returns one `FunctionCode` per raw function in order, carrying that
function's raw code, with `refactored_code` the refined-map lookup — `none`
whenever the function was not refined — and no entry for a function absent
from the raw map. -/
theorem C10_result_shape (jobs : List (String × Job)) (jobId : String) (j : Job)
    (hl : jobs.lookup jobId = some j)
    (hs : j.status = .completed ∨ j.status = .failed) :
    ∃ r, getJobResult jobs jobId = .ok r ∧
      r.functions = j.raw_functions.map
        (fun nc => ⟨nc.1, nc.2, j.refactored_functions.lookup nc.1⟩) ∧
      r.functions.length = j.raw_functions.length ∧
      r.functions.map FunctionCode.name = j.raw_functions.map Prod.fst ∧
      (∀ fc ∈ r.functions,
        fc.name ∉ j.refactored_functions.map Prod.fst → fc.refactored_code = none) := by
  refine ⟨⟨jobId, j.status, buildFunctionCodes j,
    j.raw_combined, j.refactored_combined, j.error⟩, ?_, rfl, ?_, ?_, ?_⟩
  · simp [getJobResult, hl, hs]
  · simp [buildFunctionCodes]
  · simp [buildFunctionCodes, Function.comp]
  · intro fc hfc hkeys
    simp only [buildFunctionCodes, List.mem_map] at hfc
    obtain ⟨nc, _, rfl⟩ := hfc
    exact lookup_eq_none_of_not_mem_keys nc.1 j.refactored_functions hkeys

/-- A completed job used to witness C10: two raw functions, one refined. -/
def c10DemoJob : Job :=
  { status := .completed
    stage := "Completed!"
    progress := 100
    logs := []
    file_path := "/tmp/demo"
    raw_functions := [("main", "int main()"), ("helper", "int helper()")]
    refactored_functions := [("main", "int main(void)")]
    raw_combined := ""
    refactored_combined := ""
    error := none }

/-- Witness for C10 at `c10DemoJob`: the skipped `helper` comes back with
`refactored_code = none`. -/
theorem C10_result_shape_witness :
    ∃ r, getJobResult [("j1", c10DemoJob)] "j1" = .ok r ∧
      r.functions = c10DemoJob.raw_functions.map
        (fun nc => ⟨nc.1, nc.2, c10DemoJob.refactored_functions.lookup nc.1⟩) ∧
      r.functions.length = c10DemoJob.raw_functions.length ∧
      r.functions.map FunctionCode.name = c10DemoJob.raw_functions.map Prod.fst ∧
      (∀ fc ∈ r.functions,
        fc.name ∉ c10DemoJob.refactored_functions.map Prod.fst →
          fc.refactored_code = none) :=
  C10_result_shape [("j1", c10DemoJob)] "j1" c10DemoJob (by decide) (Or.inl rfl)

/-- C1: the claimed end-to-end run is the spec's intent but false of the
source: with disassembly yielding exactly `[("main", code)]`, the first
refinement iteration raises `TypeError` (decompile.py:150 passes
`gemini_mode`/`vertex_mode` keywords that `ai_service.refactor_code`,
ai_service.py:57-61, does not accept), line 155 is never reached, and the
job ends `failed` with the raw map stored but the refined map still empty
— evaluated here at the failing input under the default cap of 10. -/
theorem C1_code_bug :
    (processBinary (initialJob "a.exe" 9 "LLM4Decompile + Gemini" "/tmp/a")
      "/tmp/a" ["/tmp/a"] (.ok [("main", "int main()")]) 10 false false).job.status
        = .failed ∧
    (processBinary (initialJob "a.exe" 9 "LLM4Decompile + Gemini" "/tmp/a")
      "/tmp/a" ["/tmp/a"] (.ok [("main", "int main()")]) 10 false false).job.raw_functions
        = [("main", "int main()")] ∧
    (processBinary (initialJob "a.exe" 9 "LLM4Decompile + Gemini" "/tmp/a")
      "/tmp/a" ["/tmp/a"] (.ok [("main", "int main()")]) 10 false false).job.refactored_functions
        = [] ∧
    (processBinary (initialJob "a.exe" 9 "LLM4Decompile + Gemini" "/tmp/a")
      "/tmp/a" ["/tmp/a"] (.ok [("main", "int main()")]) 10 false false).job.error
        = some refactorTypeError := by
  decide

/-- C6: the selection logic is exactly as claimed — at most `maxFunctions`
functions, the priority functions (name containing `main`/`entry`/`start`,
case-insensitively) in their original order followed by the remaining
functions in their original order, cut off at the cap, with the skip count
logged — but the routine never actually refines the selected functions:
whenever the selection is non-empty, the `TypeError` at decompile.py:150
aborts the loop on its first iteration, the job ends `failed`, and the
refined map is never written (it keeps the job's prior, initially empty,
value). -/
theorem C6_cap_priority_order (fns : List (String × String)) (maxFunctions : Nat)
    (j0 : Job) (filePath : String) (fs : List String) (g v : Bool) :
    (selectFuncs fns maxFunctions).length ≤ maxFunctions ∧
    selectFuncs fns maxFunctions =
      (fns.filter isPriorityFunc).take maxFunctions ++
        (fns.filter (fun f => !isPriorityFunc f)).take
          (maxFunctions - (fns.filter isPriorityFunc).length) ∧
    (0 < fns.length - (selectFuncs fns maxFunctions).length →
      skipMsg (selectFuncs fns maxFunctions).length
          (fns.length - (selectFuncs fns maxFunctions).length)
        ∈ (processBinary j0 filePath fs (.ok fns) maxFunctions g v).job.logs) ∧
    (selectFuncs fns maxFunctions ≠ [] →
      (processBinary j0 filePath fs (.ok fns) maxFunctions g v).job.status
          = .failed ∧
      (processBinary j0 filePath fs (.ok fns) maxFunctions g v).job.refactored_functions
          = j0.refactored_functions) := by
  refine ⟨?_, ?_, ?_, ?_⟩
  · simp only [selectFuncs, List.length_take]
    exact inf_le_left
  · simp only [selectFuncs, prioritize, List.take_append_eq_append_take]
  · intro hskip
    rcases hsel : selectFuncs fns maxFunctions with _ | ⟨⟨n, c⟩, rest⟩
    · rw [hsel] at hskip
      simp only [List.length_nil, Nat.sub_zero] at hskip
      simp [processBinary, updateJobStatus, hsel, hskip, List.mem_append]
    · rw [hsel] at hskip
      simp only [List.length_cons] at hskip
      simp [processBinary, updateJobStatus, hsel, hskip, List.mem_append]
  · intro hne
    rcases hsel : selectFuncs fns maxFunctions with _ | ⟨⟨n, c⟩, rest⟩
    · exact absurd hsel hne
    · constructor
      · simp [processBinary, updateJobStatus, hsel]
      · simp only [processBinary, updateJobStatus, hsel]
        split <;> rfl

def c6DemoFns : List (String × String) :=
  [("alpha", "int alpha()"), ("use_main", "int use_main()"), ("beta", "int beta()")]

/-- Witness for C6 with three functions and a cap of 2: `use_main` jumps
ahead, one function is skipped and logged, and the non-empty selection ends
in the `TypeError` failure with the refined map untouched. -/
theorem C6_cap_priority_order_witness :
    (selectFuncs c6DemoFns 2).length ≤ 2 ∧
    selectFuncs c6DemoFns 2 =
      (c6DemoFns.filter isPriorityFunc).take 2 ++
        (c6DemoFns.filter (fun f => !isPriorityFunc f)).take
          (2 - (c6DemoFns.filter isPriorityFunc).length) ∧
    skipMsg (selectFuncs c6DemoFns 2).length
        (c6DemoFns.length - (selectFuncs c6DemoFns 2).length)
      ∈ (processBinary c10DemoJob "/tmp/b" [] (.ok c6DemoFns) 2 false false).job.logs ∧
    ((processBinary c10DemoJob "/tmp/b" [] (.ok c6DemoFns) 2 false false).job.status
        = .failed ∧
     (processBinary c10DemoJob "/tmp/b" [] (.ok c6DemoFns) 2 false false).job.refactored_functions
        = c10DemoJob.refactored_functions) := by
  have h := C6_cap_priority_order c6DemoFns 2 c10DemoJob "/tmp/b" [] false false
  exact ⟨h.1, h.2.1, h.2.2.1 (by decide), h.2.2.2 (by decide)⟩

/-- C9: starting from the job's creation value 0, every prefix of the
sequence of values `process_binary` writes to the progress field is
non-decreasing and bounded by 100.  The paths the source can actually take
write: 10 before the disassembly exception; 10, 40, 60, 100 when the
selection is empty (the only completion path); and 10, 40, 60, then the
first per-function value `60 + int((0/total)*35) = 60` before the
`TypeError` at decompile.py:150 (the failure path writes no progress of its
own, so interrupted runs are prefixes). -/
theorem C9_progress_monotone (fileName : String) (contentSize : Nat)
    (modeStr filePath0 : String) (j0 : Job) (filePath : String) (fs : List String)
    (disasm : Except String (List (String × String)))
    (maxFunctions : Nat) (g v : Bool) (k : Nat) :
    List.Chain' (· ≤ ·)
      (((initialJob fileName contentSize modeStr filePath0).progress ::
        (processBinary j0 filePath fs disasm maxFunctions g v).writes).take k) ∧
    (∀ x ∈ (initialJob fileName contentSize modeStr filePath0).progress ::
        (processBinary j0 filePath fs disasm maxFunctions g v).writes,
      x ≤ 100) := by
  have hinit : (initialJob fileName contentSize modeStr filePath0).progress = 0 := rfl
  cases disasm with
  | error e =>
    have hw : (processBinary j0 filePath fs (.error e) maxFunctions g v).writes
        = [10] := by
      simp [processBinary]
    rw [hinit, hw]
    refine ⟨(List.Pairwise.sublist (List.take_sublist k _) (by decide)).chain', ?_⟩
    intro x hx
    simp only [List.mem_cons, List.mem_singleton, List.not_mem_nil, or_false] at hx
    rcases hx with rfl | rfl <;> omega
  | ok fns =>
    rcases hsel : selectFuncs fns maxFunctions with _ | ⟨⟨n, c⟩, rest⟩
    · have hw : (processBinary j0 filePath fs (.ok fns) maxFunctions g v).writes
          = [10, 40, 60, 100] := by
        simp [processBinary, hsel]
      rw [hinit, hw]
      refine ⟨(List.Pairwise.sublist (List.take_sublist k _) (by decide)).chain', ?_⟩
      intro x hx
      simp only [List.mem_cons, List.mem_singleton, List.not_mem_nil, or_false] at hx
      rcases hx with rfl | rfl | rfl | rfl | rfl <;> omega
    · have hw : (processBinary j0 filePath fs (.ok fns) maxFunctions g v).writes
          = [10, 40, 60, 60] := by
        simp [processBinary, hsel]
      rw [hinit, hw]
      refine ⟨(List.Pairwise.sublist (List.take_sublist k _) (by decide)).chain', ?_⟩
      intro x hx
      simp only [List.mem_cons, List.mem_singleton, List.not_mem_nil, or_false] at hx
      rcases hx with rfl | rfl | rfl | rfl | rfl <;> omega

/-- Witness for C9 at a concrete empty-selection (completing) run. -/
theorem C9_progress_monotone_witness :
    List.Chain' (· ≤ ·)
      (((initialJob "a.exe" 9 "m" "/tmp/a").progress ::
        (processBinary c10DemoJob "/tmp/a" []
          (.ok ([] : List (String × String))) 10 false false).writes).take 5) ∧
    (100 : Nat) ≤ 100 :=
  ⟨(C9_progress_monotone "a.exe" 9 "m" "/tmp/a" c10DemoJob "/tmp/a" []
      (.ok []) 10 false false 5).1,
   (C9_progress_monotone "a.exe" 9 "m" "/tmp/a" c10DemoJob "/tmp/a" []
      (.ok []) 10 false false 5).2 100 (by decide)⟩

/-- C3 counterexample: truncation fires (the result differs from the input),
yet the result is *longer* than the input — the fixed 54-character closing
suffix outweighs the 8 characters of dropped repetition — and its brace
counts are unequal (the kept prefix opened two braces, only one synthetic
close is appended). -/
def c3Text : Text := "\x7b\n\x7b\na\nb\nc\nd\nx\nx\nx\nx".data

theorem C3_counterexample :
    detrepeat c3Text ≠ c3Text ∧
    c3Text.length < (detrepeat c3Text).length ∧
    countCh '\x7b' (detrepeat c3Text) ≠ countCh '\x7d' (detrepeat c3Text) := by
  decide

/-- C3 (amended): repetition truncation never lengthens the text by more
than the 54-character closing suffix, and when it changes the text the
result is the kept prefix of lines, with a single synthetic `}` appended
exactly when the prefix had more open than close braces (so the result is
brace-balanced precisely when the kept prefix had one open brace too many,
but not in general). -/
theorem C3_truncation_shape (code : Text) :
    (detrepeat code).length ≤ code.length + closingSuffix.length ∧
    (detrepeat code ≠ code →
      (detrepeat code = truncHead code ∧
        countCh '\x7b' (truncHead code) ≤ countCh '\x7d' (truncHead code)) ∨
      (detrepeat code = truncHead code ++ closingSuffix ∧
        countCh '\x7d' (truncHead code) < countCh '\x7b' (truncHead code))) := by
  have hjoin : joinNl (splitNl code) = code := joinNl_splitNl code
  by_cases h10 : (splitNl code).length < 10
  · have hd : detrepeat code = code := by
      simp [detrepeat, h10]
    rw [hd]
    exact ⟨Nat.le_add_right _ _, fun hne => absurd rfl hne⟩
  · rcases hrep : repIndex (splitNl code) with _ | t
    · have hd : detrepeat code = code := by
        simp [detrepeat, h10, hrep]
      rw [hd]
      exact ⟨Nat.le_add_right _ _, fun hne => absurd rfl hne⟩
    · by_cases h5 : 5 < t
      · have hhead : truncHead code = joinNl ((splitNl code).take t) := by
          simp [truncHead, hrep]
        have hlen : (joinNl ((splitNl code).take t)).length ≤ code.length := by
          have := joinNl_take_length_le (splitNl code) t
          rwa [hjoin] at this
        by_cases hbr : countCh '\x7d' (joinNl ((splitNl code).take t)) <
            countCh '\x7b' (joinNl ((splitNl code).take t))
        · have hd : detrepeat code = joinNl ((splitNl code).take t) ++ closingSuffix := by
            simp [detrepeat, h10, hrep, h5, hbr]
          constructor
          · rw [hd, List.length_append]
            omega
          · intro _
            right
            rw [hd, hhead]
            exact ⟨rfl, hbr⟩
        · have hd : detrepeat code = joinNl ((splitNl code).take t) := by
            simp [detrepeat, h10, hrep, h5, hbr]
          constructor
          · rw [hd]
            omega
          · intro _
            left
            rw [hd, hhead]
            exact ⟨rfl, by omega⟩
      · have hd : detrepeat code = code := by
          simp [detrepeat, h10, hrep, h5]
        rw [hd]
        exact ⟨Nat.le_add_right _ _, fun hne => absurd rfl hne⟩

/-- Witness for C3 at `c3Text`, where truncation fires and the appended-`}`
branch is taken. -/
theorem C3_truncation_shape_witness :
    (detrepeat c3Text).length ≤ c3Text.length + closingSuffix.length ∧
    ((detrepeat c3Text = truncHead c3Text ∧
        countCh '\x7b' (truncHead c3Text) ≤ countCh '\x7d' (truncHead c3Text)) ∨
     (detrepeat c3Text = truncHead c3Text ++ closingSuffix ∧
        countCh '\x7d' (truncHead c3Text) < countCh '\x7b' (truncHead c3Text))) :=
  ⟨(C3_truncation_shape c3Text).1, (C3_truncation_shape c3Text).2 (by decide)⟩

end Spec2Proof
